import Mathlib

/-!
Verification development for the Pulse repository.

Shallow embedding of the Governor (policy gate), RugCheckService (risk
oracle client), HeartbeatEngine (per-agent scheduler) and Orchestrator
(coordinator).  SOL amounts are modelled as rationals (`ℚ`), timestamps
as integers (milliseconds).  External collaborators (wallet, Jupiter
quote simulation, RugCheck API) are modelled as explicit parameters:
an `Option` value stands for "the call returned this value / the call
threw".  Log-only string fields (thoughtStream messages, per-check
`message`/`value`/`limit` strings, ISO timestamps) are elided: they are
presentation data that no property depends on.
-/

/- ===================== RugCheck (RugCheck.ts) ===================== -/

/-- Risk classification levels, as in RugCheck.ts. -/
inductive RiskLevel
| low
| medium
| high
| critical
deriving DecidableEq, Repr

/-- Recommendation values, as in RugCheck.ts. -/
inductive RugRecommendation
| hold
| monitor
| exitNow
deriving DecidableEq, Repr

/-- One parsed risk factor (RugCheck.ts `RiskFactor`). -/
structure RiskFactor where
  name : String
  description : String
  severity : RiskLevel
deriving DecidableEq, Repr

/-- Raw risk entry as returned by the RugCheck API (`data.risks[i]`);
fields may be absent, hence `Option`. -/
structure RawRisk where
  name : Option String
  description : Option String
  level : Option String
deriving DecidableEq, Repr

/-- Raw API response body used by `checkToken` (`data.score`, `data.risks`);
`score` may be absent (JS `data.score || 0`). -/
structure RugApiData where
  score : Option ℚ
  risks : List RawRisk
deriving DecidableEq, Repr

/-- The assessment `checkToken` returns (RugCheck.ts `RiskAssessment`);
`rawData` elided. -/
structure RiskAssessment where
  mint : String
  score : ℚ
  riskLevel : RiskLevel
  risks : List RiskFactor
  recommendation : RugRecommendation
  shouldAutoExit : Bool
deriving DecidableEq, Repr

/-- RugCheck.ts `RISK_THRESHOLDS.autoExit`. -/
def autoExitThreshold : ℚ := 800
/-- RugCheck.ts `RISK_THRESHOLDS.monitor`. -/
def monitorThreshold : ℚ := 500
/-- RugCheck.ts `RISK_THRESHOLDS.low`. -/
def lowThreshold : ℚ := 200

/-- RugCheck.ts `mapSeverity`: lower-cases the raw level and looks it up;
an absent or unknown level maps to low. -/
def mapSeverity (level : Option String) : RiskLevel :=
  match level with
  | none => RiskLevel.low
  | some l =>
    let s := l.toLower
    if s = "warn" then RiskLevel.medium
    else if s = "caution" then RiskLevel.low
    else if s = "critical" then RiskLevel.critical
    else if s = "danger" then RiskLevel.high
    else RiskLevel.low

/-- RugCheck.ts `parseRisks`: maps raw risks to `RiskFactor`s with
defaults for absent fields. -/
def parseRisks (rawRisks : List RawRisk) : List RiskFactor :=
  rawRisks.map fun r =>
    { name := r.name.getD "Unknown"
      description := r.description.getD ""
      severity := mapSeverity r.level }

/-- RugCheck.ts `getRiskLevel`. -/
def getRiskLevel (score : ℚ) : RiskLevel :=
  if autoExitThreshold ≤ score then RiskLevel.critical
  else if monitorThreshold ≤ score then RiskLevel.high
  else if lowThreshold ≤ score then RiskLevel.medium
  else RiskLevel.low

/-- RugCheck.ts `checkToken`.  `apiResult = some data` is a successful
API response; `apiResult = none` is the thrown/failed request handled by
the `catch` branch, which returns the hard-coded fallback assessment. -/
def checkToken (mintAddress : String) (apiResult : Option RugApiData) :
    RiskAssessment :=
  match apiResult with
  | some data =>
    let score := data.score.getD 0
    let risks := parseRisks data.risks
    let riskLevel := getRiskLevel score
    let shouldAutoExit := decide (autoExitThreshold ≤ score)
    let recommendation :=
      if shouldAutoExit then RugRecommendation.exitNow
      else if monitorThreshold ≤ score then RugRecommendation.monitor
      else RugRecommendation.hold
    { mint := mintAddress, score := score, riskLevel := riskLevel,
      risks := risks, recommendation := recommendation,
      shouldAutoExit := shouldAutoExit }
  | none =>
    { mint := mintAddress, score := 0, riskLevel := RiskLevel.low,
      risks := [{ name := "API_UNAVAILABLE",
                  description := "Could not verify token risk",
                  severity := RiskLevel.low }],
      recommendation := RugRecommendation.monitor,
      shouldAutoExit := false }

/- ===================== Governor (Governor.ts) ===================== -/

/-- Governor.ts `GovernorRules`. -/
structure GovernorRules where
  maxSingleTxSOL : ℚ
  dailyLimitSOL : ℚ
  minTokenLiquidityUSD : ℚ
  maxPriceImpactPct : ℚ
  allowedTokens : List String
  blacklistedTokens : List String
  requireRugCheck : Bool
  maxRugScore : ℚ
  maxPositionPct : ℚ
deriving DecidableEq, Repr

/-- Governor.ts `SpendingWindow`: window start (Unix ms) and SOL spent
in the window. -/
structure SpendingWindow where
  windowStart : ℤ
  totalSpent : ℚ
deriving DecidableEq, Repr

/-- Governor.ts `GovernorCheck`; the presentation-only `value`, `limit`
and `message` strings are elided. -/
structure GovernorCheck where
  name : String
  passed : Bool
deriving DecidableEq, Repr

/-- Governor.ts `GovernorDecision`; the ISO `timestamp` string is elided. -/
structure GovernorDecision where
  approved : Bool
  reason : String
  checks : List GovernorCheck
deriving DecidableEq, Repr

/-- Governor.ts `DEFAULT_RULES` with the environment-variable overrides
absent, i.e. the literal fallback values. -/
def DEFAULT_RULES : GovernorRules :=
  { maxSingleTxSOL := 1/2
    dailyLimitSOL := 2
    minTokenLiquidityUSD := 50000
    maxPriceImpactPct := 3
    allowedTokens := []
    blacklistedTokens := ["11111111111111111111111111111112"]
    requireRugCheck := true
    maxRugScore := 700
    maxPositionPct := 25 }

/-- Milliseconds in 24 hours, the literal `86400000` in Governor.ts. -/
def dayMs : ℤ := 86400000

/-- Governor.ts `refreshSpendingWindow` as a function of the current
time `now` (ms): if ≥ 24h elapsed since window start, the window is
replaced by `(now, 0)`; otherwise it is untouched. -/
def refreshSpendingWindow (w : SpendingWindow) (now : ℤ) : SpendingWindow :=
  if dayMs ≤ now - w.windowStart then { windowStart := now, totalSpent := 0 }
  else w

/-- The pass/fail outcome of Governor.ts check 3 (position size).
The source computes `positionPct = (amountSOL / agentBalanceSOL) * 100`
with JS numbers and tests `positionPct <= maxPositionPct`.  With
`agentBalanceSOL = 0` the JS quotient is `+Infinity` (amount > 0),
`NaN` (amount = 0) or `-Infinity` (amount < 0); the first two make the
comparison false, the third makes it true.  Hence the explicit
zero-denominator branch below.  For a nonzero balance the rational
quotient is exact. -/
def positionCheckPassed (amountSOL agentBalanceSOL maxPositionPct : ℚ) : Bool :=
  if agentBalanceSOL = 0 then decide (amountSOL < 0)
  else decide (amountSOL / agentBalanceSOL * 100 ≤ maxPositionPct)

/-- Governor.ts `approveSwap`.  Pure rendering of the method: the
mutable `this.spendingWindow` is threaded explicitly (input `w`, output
second component); `now` is `Date.now()`; `jupiterSim` is the outcome of
`this.jupiter.simulateSwap` if it is consulted (`none` = the call threw,
handled by the `catch` that substitutes impact 0); `rugApi` is the raw
RugCheck API outcome passed on to `checkToken`. -/
def approveSwap (rules : GovernorRules) (w : SpendingWindow) (now : ℤ)
    (amountSOL : ℚ) (outputMint : String) (agentBalanceSOL : ℚ)
    (simulatedPriceImpact : Option ℚ) (jupiterSim : Option ℚ)
    (rugApi : Option RugApiData) : GovernorDecision × SpendingWindow :=
  -- CHECK 1: single transaction limit
  let singleTxCheck : GovernorCheck :=
    { name := "single_tx_limit",
      passed := decide (amountSOL ≤ rules.maxSingleTxSOL) }
  -- CHECK 2: daily spending limit (lazy refresh happens here)
  let w1 := refreshSpendingWindow w now
  let projectedDailyTotal := w1.totalSpent + amountSOL
  let dailyLimitCheck : GovernorCheck :=
    { name := "daily_limit",
      passed := decide (projectedDailyTotal ≤ rules.dailyLimitSOL) }
  -- CHECK 3: position size vs balance
  let positionCheck : GovernorCheck :=
    { name := "position_size",
      passed := positionCheckPassed amountSOL agentBalanceSOL rules.maxPositionPct }
  -- CHECK 4: token blacklist
  let blacklistCheck : GovernorCheck :=
    { name := "blacklist",
      passed := !(rules.blacklistedTokens.contains outputMint) }
  -- CHECK 5: token whitelist, only if the allow list is non-empty
  let whitelistChecks : List GovernorCheck :=
    if rules.allowedTokens.length > 0 then
      [{ name := "whitelist", passed := rules.allowedTokens.contains outputMint }]
    else []
  -- CHECK 6: price impact (argument wins; otherwise simulate; throw ↦ 0)
  let resolvedPriceImpact : ℚ :=
    match simulatedPriceImpact with
    | some v => v
    | none => jupiterSim.getD 0
  let priceImpactCheck : GovernorCheck :=
    { name := "price_impact",
      passed := decide (resolvedPriceImpact ≤ rules.maxPriceImpactPct) }
  -- CHECK 7: rug score, consulted only when requireRugCheck
  let rugScoreCheck : GovernorCheck :=
    if rules.requireRugCheck then
      { name := "rug_score",
        passed := decide ((checkToken outputMint rugApi).score ≤ rules.maxRugScore) }
    else { name := "rug_score", passed := true }
  let checks : List GovernorCheck :=
    [singleTxCheck, dailyLimitCheck, positionCheck, blacklistCheck]
      ++ whitelistChecks ++ [priceImpactCheck, rugScoreCheck]
  -- VERDICT
  let failed := checks.filter fun c => !c.passed
  let approved := decide (failed.length = 0)
  let w2 :=
    if approved then { w1 with totalSpent := w1.totalSpent + amountSOL } else w1
  let reason :=
    if approved then "All safety checks passed"
    else "Blocked: " ++ String.intercalate ", " (failed.map GovernorCheck.name)
  ({ approved := approved, reason := reason, checks := checks }, w2)

/-- Governor.ts `approveTransfer`: only checks 1–2 apply; the
destination address takes no part in any check. -/
def approveTransfer (rules : GovernorRules) (w : SpendingWindow) (now : ℤ)
    (amountSOL : ℚ) : GovernorDecision × SpendingWindow :=
  let singleTxCheck : GovernorCheck :=
    { name := "single_tx_limit",
      passed := decide (amountSOL ≤ rules.maxSingleTxSOL) }
  let w1 := refreshSpendingWindow w now
  let projectedTotal := w1.totalSpent + amountSOL
  let dailyLimitCheck : GovernorCheck :=
    { name := "daily_limit",
      passed := decide (projectedTotal ≤ rules.dailyLimitSOL) }
  let checks := [singleTxCheck, dailyLimitCheck]
  let approved := checks.all fun c => c.passed
  let w2 :=
    if approved then { w1 with totalSpent := w1.totalSpent + amountSOL } else w1
  let reason :=
    if approved then "Transfer approved"
    else "Transfer blocked by spending limit"
  ({ approved := approved, reason := reason, checks := checks }, w2)

example :
    (approveSwap DEFAULT_RULES ⟨0, 0⟩ 1000 (1/10) "TOK" 1 (some 0) none none).1.approved
      = true := by
  norm_num [approveSwap, refreshSpendingWindow, dayMs, DEFAULT_RULES,
    positionCheckPassed, checkToken]
  all_goals decide

example :
    (approveSwap DEFAULT_RULES ⟨0, 0⟩ 1000 3 "TOK" 1 (some 0) none none).1.reason
      = "Blocked: single_tx_limit, daily_limit, position_size" := by
  norm_num [approveSwap, refreshSpendingWindow, dayMs, DEFAULT_RULES,
    positionCheckPassed, checkToken]
  all_goals decide

example :
    (approveTransfer DEFAULT_RULES ⟨0, 0⟩ 1000 (1/10)).2.totalSpent = 1/10 := by
  norm_num [approveTransfer, refreshSpendingWindow, dayMs, DEFAULT_RULES]

/- ================ HeartbeatEngine (HeartbeatEngine.ts) ================ -/

/-- Abstract state of one `HeartbeatEngine`.  `running` and
`cycleNumber` are the fields of the class; `inFlightCycles` is the set
(as a list, most recent first) of cycle numbers whose `runCycle`
invocation has begun (synchronously incrementing `cycleNumber`) but has
not yet reached the SLEEP seal — `runCycle` is `async` and suspends at
its awaits, so the interval timer can fire while cycles sit here;
`sealedCycles` are the finished ones; `warnEvents` counts WARN-class
events recorded because a tick was skipped while busy (the source
records none: no such mechanism exists in `runCycle`). -/
structure EngineState where
  running : Bool
  cycleNumber : ℕ
  inFlightCycles : List ℕ
  sealedCycles : List ℕ
  warnEvents : ℕ
deriving DecidableEq, Repr

/-- The synchronous prefix of HeartbeatEngine.ts `runCycle`, executed
whenever the interval timer fires (or `start` runs it directly): if
`running` is false it returns at once; otherwise it increments
`cycleNumber` and begins a new cycle, which is in flight until sealed.
There is no in-flight guard: the state of `inFlightCycles` is never
consulted, no tick is skipped and no WARN event is recorded. -/
def runCycleEnter (s : EngineState) : EngineState :=
  if s.running then
    { s with cycleNumber := s.cycleNumber + 1,
             inFlightCycles := (s.cycleNumber + 1) :: s.inFlightCycles }
  else s

/-- HeartbeatEngine.ts `start`: sets `running := true`, runs the first
cycle immediately, and schedules `runCycle` on the interval. -/
def startEngine (s : EngineState) : EngineState :=
  runCycleEnter { s with running := true }

/-- HeartbeatEngine.ts `stop`: clears `running` and cancels the timer
(in-flight cycles are unaffected). -/
def stopEngine (s : EngineState) : EngineState :=
  { s with running := false }

/-- Completion of a cycle's `runCycle` body (SLEEP step or catch
branch): the cycle is sealed and leaves the in-flight set. -/
def sealCycle (s : EngineState) (n : ℕ) : EngineState :=
  { s with inFlightCycles := s.inFlightCycles.erase n,
           sealedCycles := n :: s.sealedCycles }

/- ================== Orchestrator (Orchestrator.ts) ================== -/

/-- The slice of an Orchestrator.ts `AgentEntry` the verified operations
read: the role string, the wallet balance the entry's `getBalance`
reports, and the `active` flag.  (Strategy and heartbeat handles are
stopped on removal; they carry no data the claims mention.) -/
structure AgentEntryM where
  role : String
  balance : ℚ
  active : Bool
deriving DecidableEq, Repr

/-- Orchestrator state: the orchestrator wallet's agent id, the agent
registry (`this.agents`, an id-keyed record modelled as an association
list), the log of SOL transfers submitted via `sendSOL`
(from-id, to-key, amount — appended whether or not the send succeeds),
and a count of wallet calls made (`getBalance` and `sendSOL`). -/
structure OrchState where
  orchId : String
  agents : List (String × AgentEntryM)
  transfers : List (String × String × ℚ)
  walletCalls : ℕ
deriving DecidableEq, Repr

/-- Result of Orchestrator.ts `recallFunds`. -/
structure RecallResult where
  success : Bool
  amount : ℚ
  error : Option String
deriving DecidableEq, Repr

/-- Orchestrator.ts `recallFunds`: refuses an unknown id, then the
orchestrator's own (vault) id; otherwise reads the balance, keeps
0.002 SOL for gas, fails below the 0.001 dust threshold, else submits
a `sendSOL` transfer to the orchestrator wallet.  `sendOk` is whether
that external send succeeds (`false` = it throws, caught and reported).
The registry is never touched. -/
def recallFunds (st : OrchState) (agentId : String) (sendOk : Bool) :
    RecallResult × OrchState :=
  match st.agents.lookup agentId with
  | none => ({ success := false, amount := 0, error := some "Agent not found" }, st)
  | some agent =>
    if agentId = st.orchId then
      ({ success := false, amount := 0, error := some "Cannot recall from vault" }, st)
    else
      let st1 := { st with walletCalls := st.walletCalls + 1 }
      let recallAmount := max 0 (agent.balance - 2/1000)
      if recallAmount < 1/1000 then
        ({ success := false, amount := 0,
           error := some "Insufficient balance to recall" }, st1)
      else
        let st2 := { st1 with
          walletCalls := st1.walletCalls + 1,
          transfers := (agentId, st.orchId, recallAmount) :: st1.transfers }
        if sendOk then ({ success := true, amount := recallAmount, error := none }, st2)
        else ({ success := false, amount := 0, error := some "send failed" }, st2)

/-- Orchestrator.ts `sackAgent`'s hard-coded `PROTECTED` list. -/
def PROTECTED : List String := ["orchestrator_main", "risk_manager_01"]

/-- Result of Orchestrator.ts `sackAgent`. -/
structure SackResult where
  success : Bool
  recalledSOL : ℚ
  error : Option String
deriving DecidableEq, Repr

/-- Orchestrator.ts `sackAgent`: fails at once on a protected id (before
any wallet or registry access), then on an unknown id; otherwise recalls
funds (failure tolerated), stops heartbeat and strategy, marks the entry
inactive and deletes it from the registry. -/
def sackAgent (st : OrchState) (agentId : String) (sendOk : Bool) :
    SackResult × OrchState :=
  if agentId ∈ PROTECTED then
    ({ success := false, recalledSOL := 0,
       error := some "Protected agent cannot be sacked" }, st)
  else
    match st.agents.lookup agentId with
    | none => ({ success := false, recalledSOL := 0, error := some "Agent not found" }, st)
    | some _ =>
      let rc := recallFunds st agentId sendOk
      let recalledSOL := if rc.1.success then rc.1.amount else 0
      let st2 := { rc.2 with agents := rc.2.agents.filter fun p => p.1 != agentId }
      ({ success := true, recalledSOL := recalledSOL, error := none }, st2)

/-- Distribution strategy argument of Orchestrator.ts `distributeCapital`. -/
inductive DistStrategy
| equal
| roleBased
deriving DecidableEq, Repr

/-- The role-weight table inside Orchestrator.ts `distributeCapital`. -/
def roleWeights : List (String × ℚ) :=
  [("dca_agent", 40/100), ("trailing_stop_agent", 25/100),
   ("scout_agent", 15/100), ("risk_manager", 5/100), ("custom", 15/100)]

/-- Per-agent weight: equal split over the full registry length, or the
role table with fallback 0.10 (`weights[agent.role] || 0.10`).  `n` is
`agents.length` as in the source (protected/skipped entries included). -/
def weightFor (strat : DistStrategy) (n : ℕ) (role : String) : ℚ :=
  match strat with
  | DistStrategy.equal => 1 / n
  | DistStrategy.roleBased => (roleWeights.lookup role).getD (10/100)

/-- JS `parseFloat(x.toFixed(4))`: round to four decimal places
(nearest, half away from zero for the nonnegative amounts that occur
here; decimal-string artefacts of binary floats elided). -/
def roundTo4 (q : ℚ) : ℚ := (Int.floor (q * 10000 + 1/2) : ℚ) / 10000

/-- Outcome of Orchestrator.ts `distributeCapital`: `none` models the
early `success: false` return for an insufficient vault; otherwise the
id→amount list of successful distributions in registry order. -/
def distributeCapital (strat : DistStrategy) (vaultBalance : ℚ)
    (orchId : String) (registry : List (String × String))
    (sendOk : String → Bool) : Option (List (String × ℚ)) :=
  let reserveSOL : ℚ := 1/10
  let distributable := max 0 (vaultBalance - reserveSOL)
  if distributable < 1/100 then none
  else
    let n := registry.length
    some (registry.filterMap fun p =>
      if p.1 = orchId then none
      else
        let weight := weightFor strat n p.2
        let amount := roundTo4 (distributable * weight)
        if amount < 1/1000 then none
        else if sendOk p.1 then some (p.1, amount) else none)

/- ========================= Claim theorems ========================= -/

/-- C1 (counterexample).  The claim "if the decision has approved =
false, the SpendingWindow is byte-for-byte unchanged by the call" fails:
at window ⟨0, 1⟩ and call time 86400000 (exactly 24h later) the lazy
refresh inside the rejected call replaces the window by ⟨86400000, 0⟩. -/
theorem approveSwap_rejected_window_changed_cex :
    (approveSwap DEFAULT_RULES ⟨0, 1⟩ 86400000 3 "TOK" 1 (some 0) none none).1.approved
        = false ∧
    (approveSwap DEFAULT_RULES ⟨0, 1⟩ 86400000 3 "TOK" 1 (some 0) none none).2
        = ⟨86400000, 0⟩ ∧
    (⟨86400000, 0⟩ : SpendingWindow) ≠ ⟨0, 1⟩ := by
  refine ⟨?_, ?_, by simp⟩ <;>
  norm_num [approveSwap, refreshSpendingWindow, dayMs, DEFAULT_RULES,
    positionCheckPassed, checkToken]

/-- C1 (amended).  Every call to `approveSwap` or `approveTransfer`
first applies the lazy 24h refresh to the window (which, when ≥ 24h have
elapsed since window-start, resets it to (now, 0) regardless of the
verdict).  Relative to the refreshed window: on approval `totalSpent`
grows by exactly the requested amount and `windowStart` is untouched; on
rejection the window equals the refreshed window.  In particular, when
less than 24h have elapsed the refresh is the identity and the original
claim holds as stated. -/
theorem spendingWindow_commit_after_refresh (rules : GovernorRules)
    (w : SpendingWindow) (now : ℤ) (amountSOL : ℚ) (outputMint : String)
    (agentBalanceSOL : ℚ) (simI jup : Option ℚ) (rugApi : Option RugApiData) :
    (approveSwap rules w now amountSOL outputMint agentBalanceSOL simI jup rugApi).2
      = (if (approveSwap rules w now amountSOL outputMint agentBalanceSOL simI jup rugApi).1.approved
          then { refreshSpendingWindow w now with
                   totalSpent := (refreshSpendingWindow w now).totalSpent + amountSOL }
          else refreshSpendingWindow w now) ∧
    (approveTransfer rules w now amountSOL).2
      = (if (approveTransfer rules w now amountSOL).1.approved
          then { refreshSpendingWindow w now with
                   totalSpent := (refreshSpendingWindow w now).totalSpent + amountSOL }
          else refreshSpendingWindow w now) := by
  exact ⟨rfl, rfl⟩

/-- C2 (counterexample).  The claim "the scheduler never begins cycle
N+1 while cycle N of the same agent has not been sealed; a tick that
fires while busy is skipped and a WARN-class event is recorded" fails:
starting the engine begins cycle 1; with cycle 1 still unsealed
(`runCycle` is async and the interval does not wait for it), the next
tick begins cycle 2 — both are in flight, nothing was skipped, and no
WARN event was recorded. -/
theorem runCycle_overlap_cex :
    (runCycleEnter (startEngine ⟨false, 0, [], [], 0⟩)).inFlightCycles = [2, 1] ∧
    (runCycleEnter (startEngine ⟨false, 0, [], [], 0⟩)).sealedCycles = [] ∧
    (runCycleEnter (startEngine ⟨false, 0, [], [], 0⟩)).warnEvents = 0 := by
  decide

/-- C2 (amended).  `runCycle`'s only guard is the `running` flag: a tick
while stopped does nothing; a tick while running always increments the
cycle counter and begins the next cycle immediately — the in-flight set
is never consulted, so overlapping cycles are possible — and no
WARN-class event is ever recorded by ticking. -/
theorem runCycle_guard_only_running (s : EngineState) :
    ((runCycleEnter s).warnEvents = s.warnEvents) ∧
    (s.running = false → runCycleEnter s = s) ∧
    (s.running = true →
      (runCycleEnter s).cycleNumber = s.cycleNumber + 1 ∧
      (runCycleEnter s).inFlightCycles = (s.cycleNumber + 1) :: s.inFlightCycles ∧
      (runCycleEnter s).sealedCycles = s.sealedCycles) := by
  refine ⟨?_, ?_, ?_⟩
  · unfold runCycleEnter; split <;> rfl
  · intro h; unfold runCycleEnter; rw [h]; rfl
  · intro h; unfold runCycleEnter; rw [h]; exact ⟨rfl, rfl, rfl⟩

/-- Witness for `runCycle_guard_only_running`: a running engine with
cycle 1 still in flight begins cycle 2 on the next tick. -/
theorem runCycle_guard_only_running_witness :
    ((⟨true, 1, [1], [], 0⟩ : EngineState).running = true) ∧
    (runCycleEnter ⟨true, 1, [1], [], 0⟩).inFlightCycles = [2, 1] := by
  have h := runCycle_guard_only_running ⟨true, 1, [1], [], 0⟩
  exact ⟨rfl, (h.2.2 rfl).2.1⟩

/-- C3 (confirmed).  The swap pipeline is exhaustive, not
short-circuited: the decision's check list always carries the full
ordered pipeline (whitelist entry present exactly when the allow-list is
non-empty; the rug_score slot is a constant pass-through marker when
requireRugCheck is disabled, so the oracle-backed check runs only when
enabled); the verdict is approved iff every listed check passed; and a
rejection's reason string is "Blocked: " followed by the names of
exactly the failing checks. -/
theorem approveSwap_pipeline_exhaustive (rules : GovernorRules)
    (w : SpendingWindow) (now : ℤ) (amountSOL : ℚ) (outputMint : String)
    (agentBalanceSOL : ℚ) (simI jup : Option ℚ) (rugApi : Option RugApiData) :
    ((approveSwap rules w now amountSOL outputMint agentBalanceSOL simI jup rugApi).1.checks.map
        GovernorCheck.name
      = ["single_tx_limit", "daily_limit", "position_size", "blacklist"]
          ++ (if rules.allowedTokens.length > 0 then ["whitelist"] else [])
          ++ ["price_impact", "rug_score"]) ∧
    ((approveSwap rules w now amountSOL outputMint agentBalanceSOL simI jup rugApi).1.approved
        = true
      ↔ ∀ c ∈ (approveSwap rules w now amountSOL outputMint agentBalanceSOL simI jup
            rugApi).1.checks, c.passed = true) ∧
    (rules.requireRugCheck = false →
      (approveSwap rules w now amountSOL outputMint agentBalanceSOL simI jup
          rugApi).1.checks.getLast? = some ⟨"rug_score", true⟩) ∧
    ((approveSwap rules w now amountSOL outputMint agentBalanceSOL simI jup rugApi).1.approved
        = false →
      (approveSwap rules w now amountSOL outputMint agentBalanceSOL simI jup rugApi).1.reason
        = "Blocked: " ++ String.intercalate ", "
            (((approveSwap rules w now amountSOL outputMint agentBalanceSOL simI jup
                rugApi).1.checks.filter fun c => !c.passed).map GovernorCheck.name)) := by
  refine ⟨?_, ?_, ?_, ?_⟩
  · by_cases hw : rules.allowedTokens.length > 0 <;>
    cases hr : rules.requireRugCheck <;>
    simp [approveSwap, hw, hr]
  · simp only [approveSwap]
    simp [List.length_eq_zero, List.filter_eq_nil_iff]
  · intro hr
    by_cases hw : rules.allowedTokens.length > 0 <;>
    simp [approveSwap, hw, hr]
  · intro h
    simp only [approveSwap] at h ⊢
    simp only [h]
    simp

/-- Witness for `approveSwap_pipeline_exhaustive`: a rejected 3-SOL swap
whose reason is exactly the failing-check names. -/
theorem approveSwap_pipeline_exhaustive_witness :
    (approveSwap DEFAULT_RULES ⟨0, 0⟩ 1000 3 "TOK" 1 (some 0) none none).1.approved = false ∧
    (approveSwap DEFAULT_RULES ⟨0, 0⟩ 1000 3 "TOK" 1 (some 0) none none).1.reason
      = "Blocked: " ++ String.intercalate ", "
          (((approveSwap DEFAULT_RULES ⟨0, 0⟩ 1000 3 "TOK" 1 (some 0) none
              none).1.checks.filter fun c => !c.passed).map GovernorCheck.name) := by
  have h := approveSwap_pipeline_exhaustive DEFAULT_RULES ⟨0, 0⟩ 1000 3 "TOK" 1 (some 0)
    none none
  have ha : (approveSwap DEFAULT_RULES ⟨0, 0⟩ 1000 3 "TOK" 1 (some 0) none none).1.approved
      = false := by
    norm_num [approveSwap, refreshSpendingWindow, dayMs, DEFAULT_RULES,
      positionCheckPassed, checkToken]
  exact ⟨ha, h.2.2.2 ha⟩

/-- C4 (confirmed).  The 24h reset is lazy and exact: below 24h since
window-start the daily check projects from the existing total and the
window keeps its start; at ≥ 24h the first evaluation resets the total
to 0 (and the start to now) before accumulating, so the daily check
projects from 0 and an approval leaves exactly the new amount in the
window. -/
theorem spendingWindow_lazy_reset (rules : GovernorRules) (w : SpendingWindow)
    (now : ℤ) (amountSOL : ℚ) (outputMint : String) (agentBalanceSOL : ℚ)
    (simI jup : Option ℚ) (rugApi : Option RugApiData) :
    (now - w.windowStart < dayMs →
      (approveSwap rules w now amountSOL outputMint agentBalanceSOL simI jup
          rugApi).1.checks.take 2
        = [⟨"single_tx_limit", decide (amountSOL ≤ rules.maxSingleTxSOL)⟩,
           ⟨"daily_limit", decide (w.totalSpent + amountSOL ≤ rules.dailyLimitSOL)⟩] ∧
      (approveSwap rules w now amountSOL outputMint agentBalanceSOL simI jup
          rugApi).2.windowStart = w.windowStart ∧
      (approveSwap rules w now amountSOL outputMint agentBalanceSOL simI jup
          rugApi).2.totalSpent
        = (if (approveSwap rules w now amountSOL outputMint agentBalanceSOL simI jup
              rugApi).1.approved then w.totalSpent + amountSOL else w.totalSpent)) ∧
    (dayMs ≤ now - w.windowStart →
      (approveSwap rules w now amountSOL outputMint agentBalanceSOL simI jup
          rugApi).1.checks.take 2
        = [⟨"single_tx_limit", decide (amountSOL ≤ rules.maxSingleTxSOL)⟩,
           ⟨"daily_limit", decide (0 + amountSOL ≤ rules.dailyLimitSOL)⟩] ∧
      (approveSwap rules w now amountSOL outputMint agentBalanceSOL simI jup
          rugApi).2.windowStart = now ∧
      (approveSwap rules w now amountSOL outputMint agentBalanceSOL simI jup
          rugApi).2.totalSpent
        = (if (approveSwap rules w now amountSOL outputMint agentBalanceSOL simI jup
              rugApi).1.approved then 0 + amountSOL else 0)) := by
  constructor
  · intro h
    have h' : ¬ dayMs ≤ now - w.windowStart := not_le.mpr h
    simp only [approveSwap, refreshSpendingWindow, if_neg h']
    refine ⟨rfl, ?_, ?_⟩
    · rw [apply_ite SpendingWindow.windowStart]; simp
    · rw [apply_ite SpendingWindow.totalSpent]
  · intro h
    simp only [approveSwap, refreshSpendingWindow, if_pos h]
    refine ⟨rfl, ?_, ?_⟩
    · rw [apply_ite SpendingWindow.windowStart]; simp
    · rw [apply_ite SpendingWindow.totalSpent]

/-- Witness for `spendingWindow_lazy_reset`: at time 0 the window
⟨0, 0⟩ is kept; at time 86400000 the window start jumps to now. -/
theorem spendingWindow_lazy_reset_witness :
    ((0 : ℤ) - 0 < dayMs) ∧ (dayMs ≤ 86400000 - 0) ∧
    (approveSwap DEFAULT_RULES ⟨0, 0⟩ 0 3 "TOK" 1 (some 0) none none).2.windowStart = 0 ∧
    (approveSwap DEFAULT_RULES ⟨0, 0⟩ 86400000 3 "TOK" 1 (some 0) none none).2.windowStart
      = 86400000 := by
  have h1 := spendingWindow_lazy_reset DEFAULT_RULES ⟨0, 0⟩ 0 3 "TOK" 1 (some 0) none none
  have h2 := spendingWindow_lazy_reset DEFAULT_RULES ⟨0, 0⟩ 86400000 3 "TOK" 1 (some 0)
    none none
  exact ⟨by decide, by decide, (h1.1 (by decide)).2.1, (h2.2 (by decide)).2.1⟩

/-- Rules of the three-spend scenario: maxSingleTx = 0.5 SOL,
daily cap = 2.0 SOL (the other fields as in `DEFAULT_RULES`). -/
def c5Rules : GovernorRules :=
  { DEFAULT_RULES with maxSingleTxSOL := 1/2, dailyLimitSOL := 2 }

/-- First 0.8-SOL evaluation of the scenario (agent balance 1 SOL,
benign oracle inputs, fresh window). -/
def c5Eval1 : GovernorDecision × SpendingWindow :=
  approveSwap c5Rules ⟨0, 0⟩ 0 (8/10) "TOK" 1 (some 0) none none

/-- Second 0.8-SOL evaluation, on the window the first call left. -/
def c5Eval2 : GovernorDecision × SpendingWindow :=
  approveSwap c5Rules c5Eval1.2 1 (8/10) "TOK" 1 (some 0) none none

/-- Third 0.8-SOL evaluation, on the window the second call left. -/
def c5Eval3 : GovernorDecision × SpendingWindow :=
  approveSwap c5Rules c5Eval2.2 2 (8/10) "TOK" 1 (some 0) none none

/-- C5 (counterexample).  The claim says the first 0.8-SOL spend is
approved with window total 0.8; in fact it is rejected (0.8 exceeds the
0.5 single-tx limit, and 80% of balance exceeds the 25% position cap)
and the window total stays 0. -/
theorem scenario_three_spends_cex :
    c5Eval1.1.approved = false ∧ c5Eval1.2.totalSpent = 0 := by
  constructor <;>
  · norm_num [c5Eval1, c5Rules, approveSwap, refreshSpendingWindow, dayMs,
      DEFAULT_RULES, positionCheckPassed, checkToken]

/-- C5 (amended).  With maxSingleTx = 0.5 and daily cap = 2.0 and an
agent balance of 1 SOL, all three sequential 0.8-SOL evaluations are
rejected — each by the single-tx-limit and position-size checks, not the
daily-window check — and the window total stays 0 throughout. -/
theorem scenario_three_spends_amended :
    c5Eval1.1.approved = false ∧ c5Eval2.1.approved = false ∧
    c5Eval3.1.approved = false ∧
    c5Eval1.1.reason = "Blocked: single_tx_limit, position_size" ∧
    c5Eval2.1.reason = "Blocked: single_tx_limit, position_size" ∧
    c5Eval3.1.reason = "Blocked: single_tx_limit, position_size" ∧
    c5Eval1.2.totalSpent = 0 ∧ c5Eval2.2.totalSpent = 0 ∧
    c5Eval3.2.totalSpent = 0 := by
  refine ⟨?_, ?_, ?_, ?_, ?_, ?_, ?_, ?_, ?_⟩ <;>
  · norm_num [c5Eval1, c5Eval2, c5Eval3, c5Rules, approveSwap,
      refreshSpendingWindow, dayMs, DEFAULT_RULES, positionCheckPassed, checkToken]
    all_goals decide

/-- Registry for the capital-distribution counterexample: three
registered agents, all of role dca_agent (weight 0.40 each). -/
def c6Registry : List (String × String) :=
  [("a1", "dca_agent"), ("a2", "dca_agent"), ("a3", "dca_agent")]

/-- C6 (counterexample).  The claim "the sum of all distributed amounts
is at most vaultBalance − reserve" fails: with vault balance 1 SOL
(distributable 0.9) and three dca_agents, each receives
round4(0.9 × 0.40) = 0.36 and the sum 1.08 exceeds 0.9. -/
theorem distributeCapital_overdistribution_cex :
    distributeCapital DistStrategy.roleBased 1 "orchestrator_main" c6Registry
        (fun _ => true)
      = some [("a1", 36/100), ("a2", 36/100), ("a3", 36/100)] ∧
    ((36 : ℚ)/100 + 36/100 + 36/100 = 108/100) ∧
    ((1 : ℚ) - 1/10 < 108/100) := by
  refine ⟨?_, by norm_num, by norm_num⟩
  have h1 : ("a1" : String) ≠ "orchestrator_main" := by decide
  have h2 : ("a2" : String) ≠ "orchestrator_main" := by decide
  have h3 : ("a3" : String) ≠ "orchestrator_main" := by decide
  norm_num [distributeCapital, c6Registry, weightFor, roleWeights, roundTo4,
    List.lookup, List.filterMap, h1, h2, h3]

/-- C6 (amended).  Per-agent amounts and dust-omission hold, but the sum
cap does not in general: every distributed entry is a non-orchestrator
registered agent whose send succeeded, its amount equals
round4(distributable × weight) for its registry role, and amounts below
the 0.001 dust threshold are omitted entirely (never sent as zero-value
transfers).  Because the role-weight table is applied per agent, the
applied weights can sum above 1 (e.g. several dca_agents at 0.40 each),
so the total can exceed vaultBalance − reserve. -/
theorem distributeCapital_dust_and_formula (strat : DistStrategy)
    (vaultBalance : ℚ) (orchId : String) (registry : List (String × String))
    (sendOk : String → Bool) (out : List (String × ℚ))
    (hout : distributeCapital strat vaultBalance orchId registry sendOk = some out)
    (p : String × ℚ) (hp : p ∈ out) :
    1/1000 ≤ p.2 ∧ p.1 ≠ orchId ∧ sendOk p.1 = true ∧
    ∃ role, (p.1, role) ∈ registry ∧
      p.2 = roundTo4 (max 0 (vaultBalance - 1/10)
              * weightFor strat registry.length role) := by
  simp only [distributeCapital] at hout
  by_cases hd : max 0 (vaultBalance - 1/10) < 1/100
  · rw [if_pos hd] at hout
    exact absurd hout (by simp)
  · rw [if_neg hd] at hout
    rw [Option.some_inj] at hout
    subst hout
    rcases List.mem_filterMap.mp hp with ⟨a, ha, hfa⟩
    by_cases h1 : a.1 = orchId
    · rw [if_pos h1] at hfa
      exact absurd hfa (by simp)
    · rw [if_neg h1] at hfa
      by_cases h2 : roundTo4 (max 0 (vaultBalance - 1/10)
          * weightFor strat registry.length a.2) < 1/1000
      · rw [if_pos h2] at hfa
        exact absurd hfa (by simp)
      · rw [if_neg h2] at hfa
        by_cases h3 : sendOk a.1 = true
        · rw [if_pos h3] at hfa
          rw [Option.some_inj] at hfa
          subst hfa
          refine ⟨not_lt.mp h2, h1, h3, a.2, ?_, rfl⟩
          rw [Prod.mk.eta]
          exact ha
        · rw [if_neg h3] at hfa
          exact absurd hfa (by simp)

/-- Witness for `distributeCapital_dust_and_formula`: agent a1 of the
three-dca_agent registry receives 0.36 = round4(0.9 × 0.40). -/
theorem distributeCapital_dust_and_formula_witness :
    (1 : ℚ)/1000 ≤ 36/100 ∧ ("a1" : String) ≠ "orchestrator_main" ∧
    (fun _ : String => true) "a1" = true ∧
    ∃ role, (("a1", role) : String × String) ∈ c6Registry ∧
      (36/100 : ℚ) = roundTo4 (max 0 ((1 : ℚ) - 1/10)
        * weightFor DistStrategy.roleBased c6Registry.length role) := by
  have hne1 : ("a1" : String) ≠ "orchestrator_main" := by decide
  have hne2 : ("a2" : String) ≠ "orchestrator_main" := by decide
  have hne3 : ("a3" : String) ≠ "orchestrator_main" := by decide
  have hsome : distributeCapital DistStrategy.roleBased 1 "orchestrator_main"
      c6Registry (fun _ => true)
      = some [("a1", 36/100), ("a2", 36/100), ("a3", 36/100)] := by
    norm_num [distributeCapital, c6Registry, weightFor, roleWeights, roundTo4,
      List.lookup, List.filterMap, hne1, hne2, hne3]
  exact distributeCapital_dust_and_formula DistStrategy.roleBased 1
    "orchestrator_main" c6Registry (fun _ => true) _ hsome ("a1", 36/100) (by simp)

/-- C7 (confirmed).  Sacking a protected agent id fails immediately: the
result is a failure and the whole orchestrator state — registry,
transfer log and wallet-call count — is untouched. -/
theorem sackAgent_protected_noop (st : OrchState) (agentId : String)
    (sendOk : Bool) (h : agentId ∈ PROTECTED) :
    (sackAgent st agentId sendOk).1.success = false ∧
    (sackAgent st agentId sendOk).2 = st := by
  unfold sackAgent
  rw [if_pos h]
  exact ⟨rfl, rfl⟩

/-- Witness for `sackAgent_protected_noop`: sacking risk_manager_01
fails and changes nothing. -/
theorem sackAgent_protected_noop_witness :
    (sackAgent ⟨"orchestrator_main",
        [("risk_manager_01", ⟨"risk_manager", 1, true⟩)], [], 0⟩
        "risk_manager_01" true).1.success = false ∧
    (sackAgent ⟨"orchestrator_main",
        [("risk_manager_01", ⟨"risk_manager", 1, true⟩)], [], 0⟩
        "risk_manager_01" true).2
      = ⟨"orchestrator_main", [("risk_manager_01", ⟨"risk_manager", 1, true⟩)], [], 0⟩ :=
  sackAgent_protected_noop _ _ _ (by decide)

/-- Orchestrator state for the recall counterexample: the registry holds
the designated risk manager with a 1-SOL wallet. -/
def c8State : OrchState :=
  { orchId := "orchestrator_main"
    agents := [("risk_manager_01", { role := "risk_manager", balance := 1, active := true })]
    transfers := []
    walletCalls := 0 }

/-- C8 (counterexample).  The claim "recallFunds(id) fails without
submitting any transfer for every protected id" fails for the designated
risk manager: `recallFunds` only screens the orchestrator/vault id, so
recalling from risk_manager_01 (protected against sacking) succeeds and
submits a 0.998-SOL transfer to the vault. -/
theorem recallFunds_risk_manager_cex :
    "risk_manager_01" ∈ PROTECTED ∧
    (recallFunds c8State "risk_manager_01" true).1.success = true ∧
    (recallFunds c8State "risk_manager_01" true).1.amount = 998/1000 ∧
    (recallFunds c8State "risk_manager_01" true).2.transfers
      = [("risk_manager_01", "orchestrator_main", 998/1000)] := by
  have hne : ("risk_manager_01" : String) ≠ "orchestrator_main" := by decide
  have hmax : max (0 : ℚ) (1 - 2/1000) = 998/1000 := by
    rw [max_eq_right] <;> norm_num
  refine ⟨by decide, ?_, ?_, ?_⟩ <;>
  norm_num [recallFunds, c8State, List.lookup, hne, hmax]

/-- C8 (amended).  `recallFunds` refuses only the orchestrator/vault
identity: calling it on the orchestrator's own id always fails and
leaves the state — in particular the transfer log — untouched.  The
designated risk manager is protected from `sackAgent` but not from a
direct `recallFunds`. -/
theorem recallFunds_vault_identity_noop (st : OrchState) (sendOk : Bool) :
    (recallFunds st st.orchId sendOk).1.success = false ∧
    (recallFunds st st.orchId sendOk).2 = st ∧
    (recallFunds st st.orchId sendOk).2.transfers = st.transfers := by
  unfold recallFunds
  cases hl : st.agents.lookup st.orchId with
  | none => exact ⟨rfl, rfl, rfl⟩
  | some a =>
    dsimp only
    rw [if_pos rfl]
    exact ⟨rfl, rfl, rfl⟩

/-- C9 (counterexample).  The claim "when fromBalance = 0 the check
fails automatically — the undefined ratio is never treated as a pass"
fails for a negative amount: with balance 0 and amount −1 the JS ratio
is −Infinity, the comparison −Infinity ≤ 25 holds, and the
position-size check passes. -/
theorem position_check_zero_balance_cex :
    (approveSwap DEFAULT_RULES ⟨0, 0⟩ 0 (-1) "TOK" 0 (some 0) none none).1.checks[2]?
      = some ⟨"position_size", true⟩ := by
  norm_num [approveSwap, refreshSpendingWindow, dayMs, DEFAULT_RULES,
    positionCheckPassed, checkToken]

/-- C9 (amended).  The third pipeline entry is the position-size check;
for a nonzero balance it fails exactly when (amount / balance) × 100
exceeds the configured maximum, and for a zero balance it fails exactly
when the amount is nonnegative (a negative amount yields −Infinity and
passes). -/
theorem position_check_semantics (rules : GovernorRules) (w : SpendingWindow)
    (now : ℤ) (amountSOL : ℚ) (outputMint : String) (agentBalanceSOL : ℚ)
    (simI jup : Option ℚ) (rugApi : Option RugApiData) :
    ((approveSwap rules w now amountSOL outputMint agentBalanceSOL simI jup
        rugApi).1.checks[2]?
      = some ⟨"position_size",
          positionCheckPassed amountSOL agentBalanceSOL rules.maxPositionPct⟩) ∧
    (agentBalanceSOL ≠ 0 →
      (positionCheckPassed amountSOL agentBalanceSOL rules.maxPositionPct = false
        ↔ rules.maxPositionPct < amountSOL / agentBalanceSOL * 100)) ∧
    (agentBalanceSOL = 0 →
      positionCheckPassed amountSOL agentBalanceSOL rules.maxPositionPct
        = decide (amountSOL < 0)) := by
  refine ⟨rfl, ?_, ?_⟩
  · intro h
    unfold positionCheckPassed
    rw [if_neg h]
    simp [not_le]
  · intro h
    unfold positionCheckPassed
    rw [if_pos h]

/-- Witness for `position_check_semantics`: with balance 2 and amount 1
the check fails iff 25 < 50; with balance 0 and amount 1 it reduces to
decide (1 < 0). -/
theorem position_check_semantics_witness :
    ((2 : ℚ) ≠ 0) ∧
    (positionCheckPassed 1 2 DEFAULT_RULES.maxPositionPct = false
      ↔ DEFAULT_RULES.maxPositionPct < 1 / 2 * 100) ∧
    ((0 : ℚ) = 0) ∧
    positionCheckPassed 1 0 DEFAULT_RULES.maxPositionPct = decide ((1 : ℚ) < 0) := by
  have h2 := position_check_semantics DEFAULT_RULES ⟨0, 0⟩ 0 1 "TOK" 2 (some 0) none none
  have h0 := position_check_semantics DEFAULT_RULES ⟨0, 0⟩ 0 1 "TOK" 0 (some 0) none none
  exact ⟨by norm_num, h2.2.1 (by norm_num), rfl, h0.2.2 rfl⟩

/-- C10 (confirmed).  When the RugCheck request fails, `checkToken`
returns the fallback assessment with score 0, riskLevel low and
shouldAutoExit false; hence (for any nonnegative configured maximum rug
score) the Governor's rug_score check passes on every oracle failure —
oracle unavailability alone can never cause a rug-score rejection. -/
theorem rugcheck_failure_permissive (rules : GovernorRules) (w : SpendingWindow)
    (now : ℤ) (amountSOL : ℚ) (outputMint : String) (agentBalanceSOL : ℚ)
    (simI jup : Option ℚ) (h : 0 ≤ rules.maxRugScore) :
    (checkToken outputMint none).score = 0 ∧
    (checkToken outputMint none).riskLevel = RiskLevel.low ∧
    (checkToken outputMint none).shouldAutoExit = false ∧
    (approveSwap rules w now amountSOL outputMint agentBalanceSOL simI jup
        none).1.checks.getLast? = some ⟨"rug_score", true⟩ := by
  refine ⟨rfl, rfl, rfl, ?_⟩
  have hpass : (if rules.requireRugCheck then
      ({ name := "rug_score",
         passed := decide ((checkToken outputMint none).score ≤ rules.maxRugScore) }
        : GovernorCheck)
      else { name := "rug_score", passed := true })
      = { name := "rug_score", passed := true } := by
    cases hr : rules.requireRugCheck
    · simp
    · simpa [hr, checkToken] using h
  by_cases hw : rules.allowedTokens.length > 0 <;>
  simp [approveSwap, hw, hpass]

/-- Witness for `rugcheck_failure_permissive`: under the default rules
(maxRugScore = 700) an oracle failure leaves the rug_score check
passing. -/
theorem rugcheck_failure_permissive_witness :
    ((0 : ℚ) ≤ DEFAULT_RULES.maxRugScore) ∧
    (approveSwap DEFAULT_RULES ⟨0, 0⟩ 0 3 "TOK" 1 (some 0) none
        none).1.checks.getLast? = some ⟨"rug_score", true⟩ := by
  have hle : (0 : ℚ) ≤ DEFAULT_RULES.maxRugScore := by norm_num [DEFAULT_RULES]
  have h := rugcheck_failure_permissive DEFAULT_RULES ⟨0, 0⟩ 0 3 "TOK" 1 (some 0) none hle
  exact ⟨hle, h.2.2.2⟩
